import Mathlib

/-!
Shallow embedding of the request handlers of `src/lib.rs`, an HTTP gateway
over a Cloudflare Workers KV store.  Pure data is modelled directly; the
external KV capability is modelled as an executable association-list store
exposing exactly the operations the handlers call.  Machine integers that
matter (`u64` query parameters, the `i32` field of `StructuredValue`) are
modelled as `Nat`/`Int` with explicit range conditions.
-/

set_option autoImplicit false

/-- Metadata record stored alongside each unstructured value
(`struct ExampleMetadata` in `lib.rs`): a single `content_type` field. -/
structure ExampleMetadata where
  content_type : String
deriving DecidableEq

/-- JSON values, as produced and consumed by serde_json in the source. -/
inductive Json where
  | null : Json
  | bool : Bool → Json
  | num : Int → Json
  | str : String → Json
  | arr : List Json → Json
  | obj : List (String × Json) → Json

/-- The fixed structured schema (`struct StructuredValue` in `lib.rs`):
`foo` is text, `bar` is a 32-bit signed integer (modelled as `Int` whose
range is enforced at the deserialization boundary, as serde does). -/
structure StructuredValue where
  foo : String
  bar : Int
deriving DecidableEq

def i32Min : Int := -(2 ^ 31)

def i32Max : Int := 2 ^ 31 - 1

/-- First field of the given name in a JSON object, as serde reads it. -/
def getField (fields : List (String × Json)) (name : String) : Option Json :=
  (fields.find? (fun p => p.1 == name)).map Prod.snd

/-- Deserialization of `StructuredValue` as derived by serde: the value must
be a JSON object with a text `foo` field and an integer `bar` field fitting
in `i32`; anything else fails. -/
def StructuredValue.fromJson : Json → Option StructuredValue
  | Json.obj fields =>
    match getField fields "foo", getField fields "bar" with
    | some (Json.str f), some (Json.num b) =>
        if i32Min ≤ b ∧ b ≤ i32Max then some ⟨f, b⟩ else none
    | _, _ => none
  | _ => none

/-- Serialization of `StructuredValue` as derived by serde. -/
def StructuredValue.toJson (v : StructuredValue) : Json :=
  Json.obj [("foo", Json.str v.foo), ("bar", Json.num v.bar)]

/-- Numeric value of a digit string. -/
def digitsToNat (cs : List Char) : Nat :=
  cs.foldl (fun acc c => acc * 10 + (c.toNat - 48)) 0

/-- Rust `str::parse::<u64>()`: an optional leading `+`, then one or more
ASCII digits, the value fitting in 64 bits; everything else (including a
leading `-`) is a parse error. -/
def parseU64 (s : String) : Option Nat :=
  let cs :=
    match s.data with
    | '+' :: rest => rest
    | cs => cs
  if cs ≠ [] ∧ cs.all Char.isDigit then
    if digitsToNat cs < 2 ^ 64 then some (digitsToNat cs) else none
  else none

/-- Modelled from the spec: `utils::param_from` (the `utils` module of the
repository is not under `src/`).  Per the spec, routing delivers
already-parsed query parameters; this returns the value of the first query
pair with the given name, when present. -/
def param_from (query : List (String × String)) (name : String) : Option String :=
  (query.find? (fun p => p.1 == name)).map Prod.snd

/-- Response bodies: plain text, raw bytes, or JSON. -/
inductive Body where
  | text : String → Body
  | bytes : List Nat → Body
  | json : Json → Body

/-- An HTTP response: status code, body, and response headers. -/
structure HttpResponse where
  status : Nat
  body : Body
  headers : List (String × String)

def Response.ok (s : String) : HttpResponse :=
  ⟨200, Body.text s, []⟩

def Response.error (msg : String) (code : Nat) : HttpResponse :=
  ⟨code, Body.text msg, []⟩

def Response.from_bytes (b : List Nat) : HttpResponse :=
  ⟨200, Body.bytes b, []⟩

def Response.from_json (j : Json) : HttpResponse :=
  ⟨200, Body.json j, [("content-type", "application/json")]⟩

def HttpResponse.with_headers (r : HttpResponse) (hs : List (String × String)) : HttpResponse :=
  { r with headers := hs }

/-- A value as held by the store: raw bytes (written by the unstructured
put) or a serialized JSON document (written by the structured put). -/
inductive StoredValue where
  | bytes : List Nat → StoredValue
  | json : Json → StoredValue

/-- One store entry: value, optional metadata, optional expiration TTL. -/
structure KvEntry where
  value : StoredValue
  metadata : Option ExampleMetadata
  expiration_ttl : Option Nat

/-- Executable model of the external KV store: an association list from
keys to entries (first match wins). -/
structure KvStore where
  entries : List (String × KvEntry)

def KvStore.lookup (s : KvStore) (k : String) : Option KvEntry :=
  (s.entries.find? (fun p => p.1 == k)).map Prod.snd

def KvStore.insert (s : KvStore) (k : String) (e : KvEntry) : KvStore :=
  ⟨(k, e) :: s.entries.filter (fun p => p.1 != k)⟩

def KvStore.remove (s : KvStore) (k : String) : KvStore :=
  ⟨s.entries.filter (fun p => p.1 != k)⟩

mutual

/-- serde_json serialization of a JSON value, used only to present a
JSON-stored value as bytes to the unstructured read path. -/
def jsonString : Json → String
  | Json.null => "null"
  | Json.bool b => cond b "true" "false"
  | Json.num n => toString n
  | Json.str s => "\"" ++ s ++ "\""
  | Json.arr xs => "[" ++ jsonStringArr xs ++ "]"
  | Json.obj fs => "\x7b" ++ jsonStringObj fs ++ "\x7d"

def jsonStringArr : List Json → String
  | [] => ""
  | [x] => jsonString x
  | x :: xs => jsonString x ++ "," ++ jsonStringArr xs

def jsonStringObj : List (String × Json) → String
  | [] => ""
  | [(k, v)] => "\"" ++ k ++ "\":" ++ jsonString v
  | (k, v) :: xs => "\"" ++ k ++ "\":" ++ jsonString v ++ "," ++ jsonStringObj xs

end

def stringToBytes (s : String) : List Nat :=
  s.toUTF8.toList.map (fun b => b.toNat)

def StoredValue.toBytes : StoredValue → List Nat
  | StoredValue.bytes b => b
  | StoredValue.json j => stringToBytes (jsonString j)

/-- The capability `GetBytesWithMetadata`: a combined read returning the
value bytes (when present) and the metadata (when present). -/
def KvStore.get_bytes_with_metadata (s : KvStore) (k : String) :
    Option (List Nat) × Option ExampleMetadata :=
  match KvStore.lookup s k with
  | none => (none, none)
  | some e => (some (StoredValue.toBytes e.value), e.metadata)

/-- The capability `PutBytes`: atomic write of value bytes plus metadata. -/
def KvStore.put_bytes (s : KvStore) (k : String) (b : List Nat) (md : ExampleMetadata) : KvStore :=
  KvStore.insert s k ⟨StoredValue.bytes b, some md, none⟩

/-- The capability `PutSerialized`: atomic write of a serialized structured
value with optional expiration; the prior entry (metadata included) is
replaced wholesale. -/
def KvStore.put_serialized (s : KvStore) (k : String) (v : StructuredValue)
    (ttl : Option Nat) : KvStore :=
  KvStore.insert s k ⟨StoredValue.json (StructuredValue.toJson v), none, ttl⟩

/-- Store-level errors surfaced by the KV capability (`worker::kv::KvError`):
a deserialization failure, or any other store failure. -/
inductive KvError where
  | serialization : KvError
  | other : String → KvError

/-- The capability `GetDeserialized` (`store.get(key).json::<StructuredValue>()`):
absent key yields `ok none`; a present entry that does not deserialize into
the schema yields `KvError.serialization`.  Raw byte payloads are modelled
as failing structured deserialization. -/
def KvStore.get_json (s : KvStore) (k : String) : Except KvError (Option StructuredValue) :=
  match KvStore.lookup s k with
  | none => Except.ok none
  | some e =>
    match e.value with
    | StoredValue.json j =>
      match StructuredValue.fromJson j with
      | some v => Except.ok (some v)
      | none => Except.error KvError.serialization
    | StoredValue.bytes _ => Except.error KvError.serialization

/-- The `(limit, prefix)` pair the `list` handler passes to the store's
enumerate capability (`lib.rs` lines 24-29): `limit` is the query parameter
parsed as `u64`, defaulting to 100 when absent or unparsable; the prefix is
the `prefix` parameter, defaulting to the empty string. -/
def list_params (query : List (String × String)) : Nat × String :=
  (((param_from query "limit").bind parseU64).getD 100,
   (param_from query "prefix").getD "")

/-- The store's enumerate capability: keys with the given prefix, at most
`limit` of them. -/
def KvStore.list (s : KvStore) (limit : Nat) (pfx : String) : List String :=
  ((s.entries.map Prod.fst).filter (fun k => pfx.isPrefixOf k)).take limit

/-- The `list` handler (`lib.rs` lines 18-33). -/
def list (query : List (String × String)) (store : KvStore) : HttpResponse :=
  let p := list_params query
  Response.from_json (Json.arr ((KvStore.list store p.1 p.2).map Json.str))

/-- An unstructured put request: key path parameter, raw body bytes, and
the optional `content-type` request header. -/
structure UnstructuredPutRequest where
  key : String
  body : List Nat
  content_type_header : Option String

/-- The unstructured `put` handler (`lib.rs` lines 35-53): stores the body
bytes with a metadata record whose `content_type` is the request header,
defaulting to `"data/binary"`. -/
def put (req : UnstructuredPutRequest) (store : KvStore) : KvStore × HttpResponse :=
  let content_type := req.content_type_header.getD "data/binary"
  (KvStore.put_bytes store req.key req.body ⟨content_type⟩, Response.ok "inserted")

/-- The match at the heart of the unstructured `get` handler (`lib.rs`
lines 60-79), classifying the pair returned by the combined read. -/
def get_core (maybe_value : Option (List Nat)) (maybe_metadata : Option ExampleMetadata) :
    HttpResponse :=
  match maybe_value, maybe_metadata with
  | some value, some metadata =>
      HttpResponse.with_headers (Response.from_bytes value)
        [("content-type", metadata.content_type)]
  | some _, none => Response.error "no metadata found" 500
  | _, _ => Response.error "key not found" 404

/-- The unstructured `get` handler (`lib.rs` lines 55-80). -/
def get (key : String) (store : KvStore) : HttpResponse :=
  let p := KvStore.get_bytes_with_metadata store key
  get_core p.1 p.2

/-- The `delete` handler (`lib.rs` lines 82-89): unconditionally issues the
store delete, then acknowledges. -/
def delete (key : String) (store : KvStore) : KvStore × HttpResponse :=
  (KvStore.remove store key, Response.ok "deleted")

/-- A structured put request: key path parameter, the request body as JSON
(`none` when the body is not valid JSON at all), and the query string. -/
structure StructuredPutRequest where
  key : String
  body_json : Option Json
  query : List (String × String)

/-- The `structured_put` handler (`lib.rs` lines 100-126): the body must
deserialize into `StructuredValue` (else `"invalid body"`, 400, no write);
then, if a `ttl` query parameter is present it must parse as `u64` (else
`"invalid ttl"`, 400, no write); the write attaches the parsed TTL when one
was given. -/
def structured_put (req : StructuredPutRequest) (store : KvStore) : KvStore × HttpResponse :=
  match req.body_json.bind StructuredValue.fromJson with
  | none => (store, Response.error "invalid body" 400)
  | some body =>
    match param_from req.query "ttl" with
    | some ttl_str =>
      match parseU64 ttl_str with
      | none => (store, Response.error "invalid ttl" 400)
      | some ttl => (KvStore.put_serialized store req.key body (some ttl), Response.ok "inserted")
    | none => (KvStore.put_serialized store req.key body none, Response.ok "inserted")

/-- The match at the heart of the `structured_get` handler (`lib.rs` lines
130-137), classifying the result of the deserializing read. -/
def structured_get_core (result : Except KvError (Option StructuredValue)) : HttpResponse :=
  match result with
  | Except.ok (some value) => Response.from_json (StructuredValue.toJson value)
  | Except.ok none => Response.error "key not found" 404
  | Except.error KvError.serialization => Response.error "key not found" 404
  | Except.error _ => Response.error "internal server error" 500

/-- The `structured_get` handler (`lib.rs` lines 128-139). -/
def structured_get (key : String) (store : KvStore) : HttpResponse :=
  structured_get_core (KvStore.get_json store key)

theorem KvStore.lookup_insert (s : KvStore) (k : String) (e : KvEntry) :
    KvStore.lookup (KvStore.insert s k e) k = some e := by
  unfold KvStore.lookup KvStore.insert
  rw [List.find?_cons_of_pos]
  · rfl
  · simp

/-- C2: unstructured Get classifies the pair returned by the combined read
exactly: value and metadata present gives 200 with the value bytes and a
content-type header taken from the metadata; value present with metadata
absent gives the integrity fault 500 "no metadata found" (never 404); value
absent gives 404 "key not found" regardless of metadata. -/
theorem C2_theorem (v : List Nat) (m : ExampleMetadata) (m' : Option ExampleMetadata) :
    get_core (some v) (some m) = ⟨200, Body.bytes v, [("content-type", m.content_type)]⟩
    ∧ get_core (some v) none = Response.error "no metadata found" 500
    ∧ (get_core (some v) none).status ≠ 404
    ∧ get_core none m' = Response.error "key not found" 404 := by
  refine ⟨rfl, rfl, by simp [get_core, Response.error], ?_⟩
  cases m' <;> rfl

/-- C3: structured Get classifies the result of the deserializing read
exactly: a deserialized value is returned as JSON with 200; an absent entry
gives 404; a present entry that fails deserialization also gives 404; any
other store-level failure gives 500 "internal server error", never 404. -/
theorem C3_theorem (v : StructuredValue) (msg : String) :
    structured_get_core (Except.ok (some v)) = Response.from_json (StructuredValue.toJson v)
    ∧ structured_get_core (Except.ok none) = Response.error "key not found" 404
    ∧ structured_get_core (Except.error KvError.serialization)
        = Response.error "key not found" 404
    ∧ structured_get_core (Except.error (KvError.other msg))
        = Response.error "internal server error" 500
    ∧ (structured_get_core (Except.error (KvError.other msg))).status ≠ 404 := by
  exact ⟨rfl, rfl, rfl, rfl, by simp [structured_get_core, Response.error]⟩

theorem get_eq (key : String) (store : KvStore) :
    get key store
      = get_core (KvStore.get_bytes_with_metadata store key).1
          (KvStore.get_bytes_with_metadata store key).2 := rfl

/-- C4: unstructured Put of (key, bytes, content_type) followed by
unstructured Get of the same key against the updated store returns the same
bytes with the same content-type response header. -/
theorem C4_theorem (key : String) (b : List Nat) (ct : String) (store : KvStore) :
    get key (put ⟨key, b, some ct⟩ store).1
      = ⟨200, Body.bytes b, [("content-type", ct)]⟩ := by
  have h : KvStore.lookup (put ⟨key, b, some ct⟩ store).1 key
      = some ⟨StoredValue.bytes b, some ⟨ct⟩, none⟩ :=
    KvStore.lookup_insert store key _
  rw [get_eq]
  simp [KvStore.get_bytes_with_metadata, h, StoredValue.toBytes, get_core,
    Response.from_bytes, HttpResponse.with_headers]

/-- C5: a structured Put whose body does not deserialize into the schema
returns 400 "invalid body" and leaves the store untouched, so a structured
Get of a key absent from that store still yields 404 "key not found". -/
theorem C5_theorem (key : String) (j : Option Json) (query : List (String × String))
    (store : KvStore)
    (hbody : j.bind StructuredValue.fromJson = none)
    (habsent : KvStore.lookup store key = none) :
    structured_put ⟨key, j, query⟩ store = (store, Response.error "invalid body" 400)
    ∧ structured_get key store = Response.error "key not found" 404 := by
  constructor
  · simp [structured_put, hbody]
  · simp [structured_get, KvStore.get_json, habsent, structured_get_core]

theorem C5_witness :
    structured_put ⟨"k", some (Json.num 3), []⟩ ⟨[]⟩ = (⟨[]⟩, Response.error "invalid body" 400)
    ∧ structured_get "k" ⟨[]⟩ = Response.error "key not found" 404 :=
  C5_theorem "k" (some (Json.num 3)) [] ⟨[]⟩ rfl rfl

/-- C6: the limit the list handler passes to the store's enumerate
capability is the parsed value of the `limit` query parameter when it
parses as a positive integer, and 100 when the parameter is absent or
unparsable; the prefix passed is the `prefix` parameter, defaulting to the
empty string; a malformed limit is never rejected as an error (the handler
always answers 200). -/
theorem C6_theorem (query : List (String × String)) (store : KvStore) :
    (∀ s n, param_from query "limit" = some s → parseU64 s = some n → 0 < n →
      (list_params query).1 = n)
    ∧ (param_from query "limit" = none → (list_params query).1 = 100)
    ∧ (∀ s, param_from query "limit" = some s → parseU64 s = none →
      (list_params query).1 = 100)
    ∧ (∀ s, param_from query "prefix" = some s → (list_params query).2 = s)
    ∧ (param_from query "prefix" = none → (list_params query).2 = "")
    ∧ (list query store).status = 200 := by
  refine ⟨?_, ?_, ?_, ?_, ?_, rfl⟩
  · intro s n h1 h2 _
    simp [list_params, h1, h2]
  · intro h
    simp [list_params, h]
  · intro s h1 h2
    simp [list_params, h1, h2]
  · intro s h
    simp [list_params, h]
  · intro h
    simp [list_params, h]

theorem C6_witness :
    (list_params [("limit", "7"), ("prefix", "a")]).1 = 7
    ∧ (list_params [("limit", "abc")]).1 = 100
    ∧ (list_params [("limit", "7"), ("prefix", "a")]).2 = "a"
    ∧ (list_params []).1 = 100
    ∧ (list_params []).2 = "" :=
  ⟨(C6_theorem [("limit", "7"), ("prefix", "a")] ⟨[]⟩).1 "7" 7 rfl (by decide) (by decide),
   (C6_theorem [("limit", "abc")] ⟨[]⟩).2.2.1 "abc" rfl (by decide),
   (C6_theorem [("limit", "7"), ("prefix", "a")] ⟨[]⟩).2.2.2.1 "a" rfl,
   (C6_theorem [] ⟨[]⟩).2.1 rfl,
   (C6_theorem [] ⟨[]⟩).2.2.2.2.1 rfl⟩

/-- C7: an unstructured Put with no content-type request header stores
metadata whose content_type is the generic binary marker "data/binary", and
a subsequent unstructured Get reports that default in its response
header. -/
theorem C7_theorem (key : String) (b : List Nat) (store : KvStore) :
    KvStore.lookup (put ⟨key, b, none⟩ store).1 key
      = some ⟨StoredValue.bytes b, some ⟨"data/binary"⟩, none⟩
    ∧ get key (put ⟨key, b, none⟩ store).1
      = ⟨200, Body.bytes b, [("content-type", "data/binary")]⟩ := by
  have h : KvStore.lookup (put ⟨key, b, none⟩ store).1 key
      = some ⟨StoredValue.bytes b, some ⟨"data/binary"⟩, none⟩ :=
    KvStore.lookup_insert store key _
  refine ⟨h, ?_⟩
  rw [get_eq]
  simp [KvStore.get_bytes_with_metadata, h, StoredValue.toBytes, get_core,
    Response.from_bytes, HttpResponse.with_headers]

/-- C8: Delete, on any store state (keys present or absent alike), issues
the store delete and acknowledges with 200 and body "deleted"; it never
reports an error for a missing key (the model store capability does not
error on missing keys, matching the claim's assumption). -/
theorem C8_theorem (key : String) (store : KvStore) :
    delete key store = (KvStore.remove store key, Response.ok "deleted")
    ∧ (delete key store).2.status = 200
    ∧ (delete key store).2.body = Body.text "deleted" :=
  ⟨rfl, rfl, rfl⟩

/-- C9: when the body fails schema validation and the ttl parameter is also
unparsable, the response is the body-validation error "invalid body" (400),
not the TTL error, and no store write occurs: the body is checked before
the ttl parameter is parsed. -/
theorem C9_theorem (key : String) (j : Option Json) (query : List (String × String))
    (store : KvStore) (s : String)
    (hbody : j.bind StructuredValue.fromJson = none)
    (_httl : param_from query "ttl" = some s)
    (_hbad : parseU64 s = none) :
    structured_put ⟨key, j, query⟩ store = (store, Response.error "invalid body" 400)
    ∧ "invalid body" ≠ "invalid ttl" := by
  constructor
  · simp [structured_put, hbody]
  · decide

theorem C9_witness :
    structured_put ⟨"k", none, [("ttl", "abc")]⟩ ⟨[]⟩
      = (⟨[]⟩, Response.error "invalid body" 400)
    ∧ "invalid body" ≠ "invalid ttl" :=
  C9_theorem "k" none [("ttl", "abc")] ⟨[]⟩ "abc" rfl rfl rfl

/-- C1 counterexample: with a schema-valid body and `ttl=0`, the handler
accepts the request (200, "inserted") and performs a store write with
expiration 0 — `"0"` parses as `u64` — whereas the claim demands a 400
validation error and no write for `ttl=0`. -/
theorem C1_counterexample :
    structured_put
        ⟨"k", some (Json.obj [("foo", Json.str "a"), ("bar", Json.num 1)]), [("ttl", "0")]⟩ ⟨[]⟩
      = (⟨[("k", ⟨StoredValue.json (Json.obj [("foo", Json.str "a"), ("bar", Json.num 1)]),
            none, some 0⟩)]⟩,
         Response.ok "inserted") := rfl

/-- C1 (amended): a structured Put whose `ttl` query parameter is present
but does not parse as an unsigned 64-bit integer (for instance `ttl=-5` or
`ttl=abc`; `ttl=0` parses and is accepted) returns the validation error
"invalid ttl" (400), a message distinct from the body-validation one, and
performs no store write. -/
theorem C1_theorem (key : String) (j : Option Json) (v : StructuredValue)
    (query : List (String × String)) (store : KvStore) (s : String)
    (hbody : j.bind StructuredValue.fromJson = some v)
    (httl : param_from query "ttl" = some s)
    (hbad : parseU64 s = none) :
    structured_put ⟨key, j, query⟩ store = (store, Response.error "invalid ttl" 400)
    ∧ "invalid ttl" ≠ "invalid body" := by
  constructor
  · simp [structured_put, hbody, httl, hbad]
  · decide

theorem C1_witness :
    structured_put
        ⟨"k", some (Json.obj [("foo", Json.str "a"), ("bar", Json.num 1)]), [("ttl", "-5")]⟩ ⟨[]⟩
      = (⟨[]⟩, Response.error "invalid ttl" 400)
    ∧ "invalid ttl" ≠ "invalid body" :=
  C1_theorem "k" (some (Json.obj [("foo", Json.str "a"), ("bar", Json.num 1)])) ⟨"a", 1⟩
    [("ttl", "-5")] ⟨[]⟩ "-5" (by decide) rfl (by decide)

/-- C10: the structured schema's `bar` field is a 32-bit signed integer: a
Put body whose `bar` lies outside the i32 range is rejected as "invalid
body" (400) with no write; a stored entry whose `bar` lies outside that
range fails deserialization, so structured Get answers 404 "key not found";
and within the range a put value round-trips exactly through Put and
Get. -/
theorem C10_theorem (key : String) (query : List (String × String)) (store store2 : KvStore)
    (f : String) (b c : Int) (md : Option ExampleMetadata) (ttl : Option Nat)
    (hout : b < i32Min ∨ i32Max < b)
    (hin : i32Min ≤ c ∧ c ≤ i32Max)
    (hentry : KvStore.lookup store2 key
      = some ⟨StoredValue.json (Json.obj [("foo", Json.str f), ("bar", Json.num b)]), md, ttl⟩) :
    structured_put ⟨key, some (Json.obj [("foo", Json.str f), ("bar", Json.num b)]), query⟩ store
      = (store, Response.error "invalid body" 400)
    ∧ structured_get key store2 = Response.error "key not found" 404
    ∧ structured_get key
        (structured_put ⟨key, some (Json.obj [("foo", Json.str f), ("bar", Json.num c)]), []⟩
          store).1
      = Response.from_json (Json.obj [("foo", Json.str f), ("bar", Json.num c)]) := by
  have hnb : ¬(i32Min ≤ b ∧ b ≤ i32Max) := by
    rcases hout with h | h
    · exact fun hc => absurd hc.1 (not_le.mpr h)
    · exact fun hc => absurd hc.2 (not_le.mpr h)
  have hfb : StructuredValue.fromJson (Json.obj [("foo", Json.str f), ("bar", Json.num b)])
      = none := by
    show (if i32Min ≤ b ∧ b ≤ i32Max then some (StructuredValue.mk f b) else none) = none
    exact if_neg hnb
  have hfc : StructuredValue.fromJson (Json.obj [("foo", Json.str f), ("bar", Json.num c)])
      = some ⟨f, c⟩ := by
    show (if i32Min ≤ c ∧ c ≤ i32Max then some (StructuredValue.mk f c) else none)
      = some (StructuredValue.mk f c)
    exact if_pos hin
  refine ⟨?_, ?_, ?_⟩
  · simp [structured_put, hfb]
  · simp [structured_get, KvStore.get_json, hentry, hfb, structured_get_core]
  · have hput : structured_put
        ⟨key, some (Json.obj [("foo", Json.str f), ("bar", Json.num c)]), []⟩ store
        = (KvStore.put_serialized store key ⟨f, c⟩ none, Response.ok "inserted") := by
      simp [structured_put, hfc, param_from]
    have hl : KvStore.lookup (KvStore.put_serialized store key ⟨f, c⟩ none) key
        = some ⟨StoredValue.json (StructuredValue.toJson ⟨f, c⟩), none, none⟩ :=
      KvStore.lookup_insert store key _
    rw [hput]
    simp [structured_get, KvStore.get_json, hl, StructuredValue.toJson, hfc,
      structured_get_core]

theorem C10_witness :
    structured_put
        ⟨"k", some (Json.obj [("foo", Json.str "a"), ("bar", Json.num (2 ^ 31))]), []⟩ ⟨[]⟩
      = (⟨[]⟩, Response.error "invalid body" 400)
    ∧ structured_get "k"
        ⟨[("k", ⟨StoredValue.json (Json.obj [("foo", Json.str "a"), ("bar", Json.num (2 ^ 31))]),
            none, none⟩)]⟩
      = Response.error "key not found" 404
    ∧ structured_get "k"
        (structured_put ⟨"k", some (Json.obj [("foo", Json.str "a"), ("bar", Json.num 5)]), []⟩
          ⟨[]⟩).1
      = Response.from_json (Json.obj [("foo", Json.str "a"), ("bar", Json.num 5)]) :=
  C10_theorem "k" [] ⟨[]⟩
    ⟨[("k", ⟨StoredValue.json (Json.obj [("foo", Json.str "a"), ("bar", Json.num (2 ^ 31))]),
        none, none⟩)]⟩
    "a" (2 ^ 31) 5 none none (Or.inr (by decide)) (by decide) rfl
